import Mathlib

/-!
Verification of the dojo.bevy task/queue bridge (src/src/torii_v2.rs and
examples/intro_v2.rs) as a shallow embedding.

Modelling conventions:
- Machine field elements (Felt) are natural numbers; Felt::ZERO is 0.
- A spawned asynchronous task is a TaskH: a countdown of polls until the
  task resolves together with the value it eventually resolves to.  The
  result of an external network operation is a parameter of the spawning
  call (the bridge never inspects it before completion).  Polling a task
  whose countdown is positive makes one frame of background progress
  (the countdown decreases by one); a task with countdown zero yields its
  result when polled once.
- A Rust panic is modelled as Except.error carrying the panic message:
  the computation aborts catastrophically and yields no value.
- The log statements of the bridge that the specification names as
  outbound events (transaction completed / failed, clearing warnings) are
  modelled as explicit event values alongside the Bevy events.
-/

namespace DojoBevy

/-- A field element, as produced by the starknet crate.  Felt::ZERO is 0. -/
abbrev Felt := Nat

/-- Handle of one spawned asynchronous operation: the number of polls left
until it resolves, and the value it resolves to. -/
structure TaskH (α : Type) where
  remaining : Nat
  result : α
deriving Repr, DecidableEq

/-- One frame of background progress on a still-pending task. -/
def TaskH.tick {α : Type} (t : TaskH α) : TaskH α :=
  { t with remaining := t.remaining - 1 }

/-- A connected Starknet account (SingleOwnerAccount): its address, the
chain id fetched from the provider, the signing key, and whether the block
id was set to the pending tag (done only by the predeployed path). -/
structure Account where
  address : Felt
  chain_id : Felt
  private_key : Felt
  pending_block : Bool
deriving Repr, DecidableEq

/-- Result of a successful invoke transaction. -/
structure InvokeTransactionResult where
  transaction_hash : Felt
deriving Repr, DecidableEq

/-- An account error reported by a failed transaction submission. -/
abbrev AccountErr := String

/-- Outcome of one queued transaction task. -/
abbrev TxOutcome := Except AccountErr InvokeTransactionResult

/-- One contract call of a call set passed to queue_tx.  The contract
address field is named to in the source; that word is reserved here. -/
structure Call where
  to_addr : Felt
  selector : Felt
  calldata : List Felt
deriving Repr, DecidableEq

/-- Starknet connection state (struct StarknetConnectionV2). -/
structure StarknetConnectionV2 where
  connecting_task : Option (TaskH Account)
  account : Option Account
  pending_txs : List (TaskH TxOutcome)

/-- The Default value of StarknetConnectionV2. -/
def snInit : StarknetConnectionV2 :=
  { connecting_task := none, account := none, pending_txs := [] }

/-- Outbound reports of the Starknet side of the bridge.  txCompleted and
txFailed are the terminal reports of a resolved transaction task (the
info and error log lines of check_sn_task_v2, which the specification
names TransactionCompleted and TransactionFailed); clearWarning is the
warning naming the number of cleared transactions; noAccountWarning is
the warning of queue_tx when no account is connected. -/
inductive SnEvent where
  | connectedLog : SnEvent
  | txCompleted : Felt → SnEvent
  | txFailed : AccountErr → SnEvent
  | clearWarning : Nat → SnEvent
  | noAccountWarning : SnEvent
deriving Repr, DecidableEq

/-- Whether a report is a terminal transaction event. -/
def SnEvent.isTerminal : SnEvent → Bool
  | .txCompleted _ => true
  | .txFailed _ => true
  | _ => false

/-- The terminal event reported for one resolved transaction outcome. -/
def eventOfOutcome : TxOutcome → SnEvent
  | .ok r => SnEvent.txCompleted r.transaction_hash
  | .error e => SnEvent.txFailed e

/-- DojoResourceV2::queue_tx.  When an account is connected a submission
task is spawned and appended at the tail of pending_txs; the eventual
network outcome of that task is the parameter spawned.  Without an
account the call set is discarded with a warning. -/
def queue_tx (s : StarknetConnectionV2) (calls : List Call)
    (spawned : TaskH TxOutcome) : StarknetConnectionV2 × List SnEvent :=
  match s.account with
  | some _ => ({ s with pending_txs := s.pending_txs ++ [spawned] }, [])
  | none => (s, [SnEvent.noAccountWarning])

/-- One sweep of a task queue, as the enumerate-then-remove-in-reverse
loops of the poll systems behave: returns the queue of still-pending
tasks (each with one frame of progress, in their original order) and the
results of the resolved tasks in index order. -/
def sweepQueue {α : Type} : List (TaskH α) → List (TaskH α) × List α
  | [] => ([], [])
  | t :: ts =>
    let rest := sweepQueue ts
    if t.remaining = 0 then (rest.1, t.result :: rest.2)
    else (t.tick :: rest.1, rest.2)

/-- The terminal reports of the resolved transaction outcomes; the source
iterates the completed list in reverse index order. -/
def txEvents (comps : List TxOutcome) : List SnEvent :=
  comps.reverse.map eventOfOutcome

/-- First stage of check_sn_task_v2: poll the connecting slot once.  A
resolved connection is stored as the account (the task yields a bare
account value; it has no error case).  A pending task is put back. -/
def pollConnecting (s : StarknetConnectionV2) : StarknetConnectionV2 × List SnEvent :=
  match s.connecting_task with
  | some t =>
    if t.remaining = 0 then
      ({ s with connecting_task := none, account := some t.result },
       [SnEvent.connectedLog])
    else ({ s with connecting_task := some t.tick }, [])
  | none => (s, [])

/-- Second stage of check_sn_task_v2: when pending_txs is non-empty,
either sweep it (account present) reporting resolved outcomes in reverse
index order, or clear it unconditionally with a warning (no account). -/
def pollTxQueue (s : StarknetConnectionV2) : StarknetConnectionV2 × List SnEvent :=
  if s.pending_txs.isEmpty then (s, [])
  else
    match s.account with
    | some _ =>
      let sw := sweepQueue s.pending_txs
      ({ s with pending_txs := sw.1 }, txEvents sw.2)
    | none =>
      ({ s with pending_txs := [] }, [SnEvent.clearWarning s.pending_txs.length])

/-- System check_sn_task_v2: poll the connecting slot, then the
transaction queue, in that order. -/
def check_sn_task_v2 (s : StarknetConnectionV2) : StarknetConnectionV2 × List SnEvent :=
  ((pollTxQueue (pollConnecting s).1).1,
   (pollConnecting s).2 ++ (pollTxQueue (pollConnecting s).1).2)

lemma sweepQueue_fst {α : Type} (ts : List (TaskH α)) :
    (sweepQueue ts).1 = (ts.filter fun t => !(t.remaining == 0)).map TaskH.tick := by
  induction ts with
  | nil => rfl
  | cons t ts ih =>
    by_cases h : t.remaining = 0 <;>
      simp [sweepQueue, h, List.filter_cons, ih]

lemma sweepQueue_snd {α : Type} (ts : List (TaskH α)) :
    (sweepQueue ts).2 = (ts.filter fun t => t.remaining == 0).map TaskH.result := by
  induction ts with
  | nil => rfl
  | cons t ts ih =>
    by_cases h : t.remaining = 0 <;>
      simp [sweepQueue, h, List.filter_cons, ih]

lemma pollConnecting_eq_none (s : StarknetConnectionV2)
    (h : s.connecting_task = none) : pollConnecting s = (s, []) := by
  unfold pollConnecting
  rw [h]

lemma pollConnecting_eq_resolved (s : StarknetConnectionV2) (t : TaskH Account)
    (h : s.connecting_task = some t) (h0 : t.remaining = 0) :
    pollConnecting s =
      ({ s with connecting_task := none, account := some t.result },
       [SnEvent.connectedLog]) := by
  unfold pollConnecting
  simp only [h, if_pos h0]

lemma pollConnecting_eq_pending (s : StarknetConnectionV2) (t : TaskH Account)
    (h : s.connecting_task = some t) (h0 : t.remaining ≠ 0) :
    pollConnecting s = ({ s with connecting_task := some t.tick }, []) := by
  unfold pollConnecting
  simp only [h, if_neg h0]

lemma pollConnecting_pending (s : StarknetConnectionV2) :
    (pollConnecting s).1.pending_txs = s.pending_txs := by
  unfold pollConnecting
  cases s.connecting_task with
  | none => rfl
  | some t => by_cases h : t.remaining = 0 <;> simp [h]

lemma pollConnecting_account_isSome (s : StarknetConnectionV2)
    (h : s.account.isSome = true) : (pollConnecting s).1.account.isSome = true := by
  unfold pollConnecting
  cases s.connecting_task with
  | none => exact h
  | some t => by_cases h0 : t.remaining = 0 <;> simp [h0] <;> exact h

lemma pollConnecting_no_terminal (s : StarknetConnectionV2) :
    (pollConnecting s).2.filter SnEvent.isTerminal = [] := by
  unfold pollConnecting
  cases s.connecting_task with
  | none => rfl
  | some t =>
    by_cases h0 : t.remaining = 0 <;> simp [h0, SnEvent.isTerminal]

lemma txEvents_all_terminal (comps : List TxOutcome) :
    (txEvents comps).filter SnEvent.isTerminal = txEvents comps := by
  unfold txEvents
  induction comps.reverse with
  | nil => rfl
  | cons r rs ih =>
    cases r <;> simp [List.filter_cons, eventOfOutcome, SnEvent.isTerminal, ih]

lemma pollTxQueue_some (s : StarknetConnectionV2) (a : Account)
    (ha : s.account = some a) :
    pollTxQueue s =
      if s.pending_txs.isEmpty then (s, [])
      else ({ s with pending_txs := (sweepQueue s.pending_txs).1 },
            txEvents (sweepQueue s.pending_txs).2) := by
  unfold pollTxQueue
  rw [ha]

lemma pollTxQueue_none (s : StarknetConnectionV2) (ha : s.account = none) :
    pollTxQueue s =
      if s.pending_txs.isEmpty then (s, [])
      else ({ s with pending_txs := [] },
            [SnEvent.clearWarning s.pending_txs.length]) := by
  unfold pollTxQueue
  rw [ha]

lemma pollTxQueue_account (s : StarknetConnectionV2) :
    (pollTxQueue s).1.account = s.account := by
  unfold pollTxQueue
  by_cases h : s.pending_txs.isEmpty <;> cases hacc : s.account <;> simp [h, hacc]

lemma pollTxQueue_connecting (s : StarknetConnectionV2) :
    (pollTxQueue s).1.connecting_task = s.connecting_task := by
  unfold pollTxQueue
  by_cases h : s.pending_txs.isEmpty <;> cases hacc : s.account <;> simp [h, hacc]

/-- C1.  For every transaction task in the queue of a connected bridge,
the poll pass removes exactly the resolved tasks (the rest stay queued in
order) and the terminal reports of the pass are exactly one per resolved
task, in reverse index order: TransactionCompleted with the hash on
success, TransactionFailed with the error on failure. -/
theorem tx_poll_one_terminal_event_per_resolved_task
    (s : StarknetConnectionV2) (h : s.account.isSome = true) :
    (check_sn_task_v2 s).1.pending_txs
      = (s.pending_txs.filter fun t => !(t.remaining == 0)).map TaskH.tick
    ∧ (check_sn_task_v2 s).2.filter SnEvent.isTerminal
      = ((s.pending_txs.filter fun t => t.remaining == 0).map
          TaskH.result).reverse.map eventOfOutcome := by
  have hacc : (pollConnecting s).1.account.isSome = true :=
    pollConnecting_account_isSome s h
  have hpend := pollConnecting_pending s
  obtain ⟨a, ha⟩ := Option.isSome_iff_exists.mp hacc
  unfold check_sn_task_v2
  rw [pollTxQueue_some ((pollConnecting s).1) a ha]
  by_cases he : (pollConnecting s).1.pending_txs.isEmpty
  · have hnil : s.pending_txs = [] := by
      rw [hpend] at he; exact List.isEmpty_iff.mp he
    rw [if_pos he]
    constructor
    · simp [hpend, hnil]
    · rw [List.filter_append, pollConnecting_no_terminal]
      simp [hnil]
  · rw [if_neg he]
    constructor
    · simp [sweepQueue_fst, hpend]
    · rw [List.filter_append, pollConnecting_no_terminal, List.nil_append,
        txEvents_all_terminal, hpend, sweepQueue_snd]
      rfl

/-- Concrete instance for the C1 theorem. -/
def s1cfg : StarknetConnectionV2 :=
  { connecting_task := none
    account := some { address := 1, chain_id := 2, private_key := 3, pending_block := false }
    pending_txs :=
      [ { remaining := 0, result := Except.ok { transaction_hash := 7 } }
      , { remaining := 3, result := Except.error "reverted" }
      , { remaining := 0, result := Except.error "rejected" } ] }

/-- Witness for C1 at a concrete connected state with two resolved tasks
and one pending task. -/
theorem tx_poll_one_terminal_event_per_resolved_task_witness :
    s1cfg.account.isSome = true
    ∧ ((check_sn_task_v2 s1cfg).1.pending_txs
        = (s1cfg.pending_txs.filter fun t => !(t.remaining == 0)).map TaskH.tick
      ∧ (check_sn_task_v2 s1cfg).2.filter SnEvent.isTerminal
        = ((s1cfg.pending_txs.filter fun t => t.remaining == 0).map
            TaskH.result).reverse.map eventOfOutcome) :=
  ⟨rfl, tx_poll_one_terminal_event_per_resolved_task s1cfg rfl⟩

/-- C2.  queue_tx without a connected account is a no-op apart from a
warning: the state (in particular the queue) is unchanged and no task is
created for the call set. -/
theorem queue_tx_without_account_is_noop
    (s : StarknetConnectionV2) (calls : List Call) (spawned : TaskH TxOutcome)
    (h : s.account = none) :
    queue_tx s calls spawned = (s, [SnEvent.noAccountWarning]) := by
  unfold queue_tx
  rw [h]

/-- Witness for C2: a queue_tx call on the initial (unconnected) state. -/
theorem queue_tx_without_account_is_noop_witness :
    snInit.account = none
    ∧ queue_tx snInit [{ to_addr := 1, selector := 2, calldata := [] }]
        { remaining := 0, result := Except.ok { transaction_hash := 9 } }
      = (snInit, [SnEvent.noAccountWarning]) :=
  ⟨rfl, queue_tx_without_account_is_noop snInit _ _ rfl⟩

/-- A sample connected account value. -/
def acc0 : Account :=
  { address := 1, chain_id := 2, private_key := 3, pending_block := false }

/-- Counterexample state for C4: at the start of the pass the account is
absent and one transaction is queued, but the connecting slot holds a
task that resolves in this very pass. -/
def s0c4 : StarknetConnectionV2 :=
  { connecting_task := some { remaining := 0, result := acc0 }
    account := none
    pending_txs := [{ remaining := 5, result := Except.ok { transaction_hash := 7 } }] }

/-- C4 counterexample.  The queue check of check_sn_task_v2 runs after
the connecting slot is polled, so when a connection attempt resolves in
the same pass the queued tasks are not discarded: starting from a state
with sn.account None and a non-empty queue (N is 1), after the poll the
queue still has 1 entry and a stored account, contradicting the claim
that the queue has 0 entries after the poll. -/
theorem clear_claim_fails_when_connection_resolves_same_pass :
    s0c4.account = none
    ∧ s0c4.pending_txs.length = 1
    ∧ (check_sn_task_v2 s0c4).1.pending_txs.length = 1 :=
  ⟨rfl, rfl, rfl⟩

/-- C4 amended.  If the account is still unavailable at the point of the
transaction-queue check (that is, sn.account is None and the connecting
slot did not resolve during this pass) while the queue is non-empty, then
after the poll the queue has 0 entries, the account is still absent, and
the only report of the pass is the clearing warning naming the number of
discarded entries; in particular no terminal event is emitted for any of
them, in this pass or ever (the tasks are gone from the state). -/
theorem queue_cleared_when_account_unavailable_at_queue_check
    (s : StarknetConnectionV2)
    (h : (pollConnecting s).1.account = none)
    (hne : s.pending_txs ≠ []) :
    (check_sn_task_v2 s).1.pending_txs = []
    ∧ (check_sn_task_v2 s).1.account = none
    ∧ (check_sn_task_v2 s).2 = [SnEvent.clearWarning s.pending_txs.length] := by
  have hpend := pollConnecting_pending s
  have he : (pollConnecting s).1.pending_txs.isEmpty = false := by
    rw [hpend]
    exact List.isEmpty_eq_false.mpr hne
  have hp1ev : (pollConnecting s).2 = [] := by
    cases hct : s.connecting_task with
    | none => rw [pollConnecting_eq_none s hct]
    | some t =>
      by_cases h0 : t.remaining = 0
      · rw [pollConnecting_eq_resolved s t hct h0] at h
        simp at h
      · rw [pollConnecting_eq_pending s t hct h0]
  unfold check_sn_task_v2
  rw [pollTxQueue_none ((pollConnecting s).1) h, if_neg (by rw [he]; simp)]
  refine ⟨rfl, h, ?_⟩
  rw [hp1ev, hpend]
  rfl

/-- Concrete state for the C4 amended witness: no connecting task, no
account, two queued transactions. -/
def s4w : StarknetConnectionV2 :=
  { connecting_task := none
    account := none
    pending_txs :=
      [ { remaining := 2, result := Except.ok { transaction_hash := 7 } }
      , { remaining := 0, result := Except.error "rejected" } ] }

/-- Witness for the C4 amended theorem. -/
theorem queue_cleared_when_account_unavailable_witness :
    (check_sn_task_v2 s4w).1.pending_txs = []
    ∧ (check_sn_task_v2 s4w).1.account = none
    ∧ (check_sn_task_v2 s4w).2 = [SnEvent.clearWarning s4w.pending_txs.length] :=
  queue_cleared_when_account_unavailable_at_queue_check s4w rfl
    (List.cons_ne_nil _ _)

/-- One call of the public facade or one run of the poll system, acting
on the Starknet connection state.  connect covers connect_account and
connect_predeployed_account: both only overwrite the connecting slot
with a freshly spawned task (whose eventual value and timing are the
parameter t).  The Torii-side operations never touch this state. -/
inductive SnStep : StarknetConnectionV2 → StarknetConnectionV2 → Prop where
  | connect (s : StarknetConnectionV2) (t : TaskH Account) :
      SnStep s { s with connecting_task := some t }
  | queueTx (s : StarknetConnectionV2) (calls : List Call) (spawned : TaskH TxOutcome) :
      SnStep s (queue_tx s calls spawned).1
  | poll (s : StarknetConnectionV2) : SnStep s (check_sn_task_v2 s).1

/-- States of the Starknet connection reachable from the Default value. -/
inductive ReachableSn : StarknetConnectionV2 → Prop where
  | init : ReachableSn snInit
  | step {s s' : StarknetConnectionV2} :
      ReachableSn s → SnStep s s' → ReachableSn s'

lemma queue_tx_account (s : StarknetConnectionV2) (calls : List Call)
    (spawned : TaskH TxOutcome) : (queue_tx s calls spawned).1.account = s.account := by
  unfold queue_tx
  cases hacc : s.account
  · exact hacc
  · rfl

lemma pollTxQueue_cleared_of_none (s : StarknetConnectionV2)
    (h : (pollTxQueue s).1.account = none) : (pollTxQueue s).1.pending_txs = [] := by
  rw [pollTxQueue_account] at h
  rw [pollTxQueue_none s h]
  by_cases he : s.pending_txs.isEmpty
  · rw [if_pos he]
    exact List.isEmpty_iff.mp he
  · rw [if_neg he]

/-- C9.  The stored account is never reset: every operation of the bridge
maps a state with an account present to a state with an account present;
and in every reachable state an absent account forces an empty
transaction queue, so the branch of check_sn_task_v2 that clears a
non-empty queue for lack of an account can only run before the first
successful connection, when the queue is necessarily empty. -/
theorem account_never_cleared_and_clear_branch_vacuous :
    (∀ s s' : StarknetConnectionV2, SnStep s s' →
      s.account.isSome = true → s'.account.isSome = true)
    ∧ (∀ s : StarknetConnectionV2, ReachableSn s →
        s.account = none → s.pending_txs = []) := by
  constructor
  · intro s s' hstep hsome
    cases hstep with
    | connect t => exact hsome
    | queueTx calls spawned => rw [queue_tx_account]; exact hsome
    | poll =>
      show (pollTxQueue (pollConnecting s).1).1.account.isSome = true
      rw [pollTxQueue_account]
      exact pollConnecting_account_isSome s hsome
  · intro s hr
    induction hr with
    | init => intro _; rfl
    | @step s s' _ hstep ih =>
      intro hnone
      cases hstep with
      | connect t => exact ih hnone
      | queueTx calls spawned =>
        have hacc : s.account = none := by
          rw [queue_tx_account] at hnone; exact hnone
        unfold queue_tx
        rw [hacc]
        exact ih hacc
      | poll =>
        exact pollTxQueue_cleared_of_none ((pollConnecting s).1) hnone

/-- A connected state with no pending work, for the C9 witness. -/
def s9a : StarknetConnectionV2 :=
  { connecting_task := none, account := some acc0, pending_txs := [] }

/-- Witness for C9: a connect step preserves a present account, and the
initial reachable state has an empty queue. -/
theorem account_never_cleared_witness :
    ({ s9a with connecting_task := some { remaining := 4, result := acc0 }
      } : StarknetConnectionV2).account.isSome = true
    ∧ snInit.pending_txs = [] :=
  ⟨account_never_cleared_and_clear_branch_vacuous.1 s9a _
      (SnStep.connect s9a { remaining := 4, result := acc0 }) rfl,
   account_never_cleared_and_clear_branch_vacuous.2 snInit ReachableSn.init rfl⟩

/-- An error of the Torii grpc client. -/
abbrev ToriiError := String

/-- A connected Torii world client (abstract identity). -/
structure WorldClient where
  world_address : Felt
deriving Repr, DecidableEq

/-- One member of a schema struct, with the results of the accessor
chains the example uses: as_primitive followed by as_contract_address,
and as_primitive followed by as_u32 (each chain collapsed into one
optional value; the accessors are external library code). -/
structure Member where
  mname : String
  as_contract_address : Option Felt
  as_u32 : Option Nat
deriving Repr, DecidableEq

/-- A decoded model value (dojo_types schema Struct). -/
structure Struct where
  name : String
  children : List Member
deriving Repr, DecidableEq

/-- Member lookup by name on a schema struct. -/
def Struct.get (sv : Struct) (n : String) : Option Member :=
  sv.children.find? fun m => m.mname == n

/-- A wire-level model of a retrieval response.  The bridge only ever
applies the external TryInto conversion to it; the conversion outcome is
the field try_into (none when the conversion fails). -/
structure ProtoModel where
  try_into : Option Struct
deriving Repr, DecidableEq

/-- A wire-level entity of a retrieval response.  hashed_keys is already
taken through Felt::from_bytes_be_slice (external, total). -/
structure ProtoEntity where
  hashed_keys : Felt
  models : List ProtoModel
deriving Repr, DecidableEq

/-- A retrieval response page. -/
structure RetrieveEntitiesResponse where
  entities : List ProtoEntity
deriving Repr, DecidableEq

/-- State of one registered subscription: the background streaming task
(opaque identity) and the active flag. -/
structure SubscriptionTaskState where
  task : Nat
  is_active : Bool
deriving Repr, DecidableEq

/-- Torii connection state (struct ToriiConnectionV2).  The subscription
registry (a HashMap behind a shared lock) is an association list; the
fan-in channel is the buffer of pairs already pushed by background
subscription tasks but not yet drained (none before connect_torii
creates the channel). -/
structure ToriiConnectionV2 where
  init_task : Option (TaskH (Except ToriiError WorldClient))
  client : Option WorldClient
  pending_retrieve_entities : List (TaskH (Except ToriiError RetrieveEntitiesResponse))
  subscriptions : List (String × SubscriptionTaskState)
  subscription_receiver : Option (List (Felt × List Struct))
  pending_subscription_stores : List (TaskH (Except String Unit))

/-- Outbound reports of the Torii side: the two Bevy events
(DojoInitializedEventV2 and DojoEntityUpdatedV2) and the log lines of
check_torii_task_v2. -/
inductive ToriiEvent where
  | initializedEvent : ToriiEvent
  | entityUpdated : Felt → List Struct → ToriiEvent
  | initErrorLog : ToriiError → ToriiEvent
  | retrieveErrorLog : ToriiError → ToriiEvent
  | storeOkLog : ToriiEvent
  | storeErrorLog : String → ToriiEvent
deriving Repr, DecidableEq

/-- Whether a report is the DojoInitializedEventV2 Bevy event. -/
def ToriiEvent.isInit : ToriiEvent → Bool
  | .initializedEvent => true
  | _ => false

/-- Number of DojoInitializedEventV2 events in a report list. -/
def countInit (evs : List ToriiEvent) : Nat :=
  (evs.filter ToriiEvent.isInit).length

/-- DojoResourceV2::connect_torii: spawns the client construction task
(eventual outcome and timing given by spawned), overwriting any pending
attempt, and recreates the fan-in channel empty, discarding any buffered
but unread subscription pushes. -/
def connect_torii (s : ToriiConnectionV2)
    (spawned : TaskH (Except ToriiError WorldClient)) : ToriiConnectionV2 :=
  { s with init_task := some spawned, subscription_receiver := some [] }

/-- First stage of check_torii_task_v2: poll the init slot once.  On Ok
the client is stored and one DojoInitializedEventV2 is written; on Err
the resolved task is put back (the re-arm the specification flags as a
latent defect); a pending task is put back with one frame of progress. -/
def pollInit (s : ToriiConnectionV2) : ToriiConnectionV2 × List ToriiEvent :=
  match s.init_task with
  | some t =>
    if t.remaining = 0 then
      match t.result with
      | .ok c =>
        ({ s with init_task := none, client := some c },
         [ToriiEvent.initializedEvent])
      | .error e => ({ s with init_task := some t }, [ToriiEvent.initErrorLog e])
    else ({ s with init_task := some t.tick }, [])
  | none => (s, [])

/-- The unwrap of each model conversion in check_torii_task_v2: the
first failing conversion panics with the unwrap message. -/
def convertModels : List ProtoModel → Except String (List Struct)
  | [] => .ok []
  | m :: rest =>
    match m.try_into with
    | none => .error "called Option::unwrap on a None value"
    | some sv =>
      match convertModels rest with
      | .error msg => .error msg
      | .ok rest' => .ok (sv :: rest')

/-- DojoEntityUpdatedV2 events written for the entities of one Ok
retrieval response, in entity order.  A panic (failed model conversion)
carries the events already written before it. -/
def entityEvents : List ProtoEntity → Except (String × List ToriiEvent) (List ToriiEvent)
  | [] => .ok []
  | e :: rest =>
    match convertModels e.models with
    | .error msg => .error (msg, [])
    | .ok ms =>
      match entityEvents rest with
      | .error p => .error (p.1, ToriiEvent.entityUpdated e.hashed_keys ms :: p.2)
      | .ok evs => .ok (ToriiEvent.entityUpdated e.hashed_keys ms :: evs)

/-- Processing of the completed retrieval results, already ordered as
the source iterates them (reverse index order): Ok responses produce one
DojoEntityUpdatedV2 per entity (a failed conversion panics the pass),
Err results produce an error log. -/
def processRetrieveResults :
    List (Except ToriiError RetrieveEntitiesResponse) →
      Except (String × List ToriiEvent) (List ToriiEvent)
  | [] => .ok []
  | .error e :: rest =>
    match processRetrieveResults rest with
    | .error p => .error (p.1, ToriiEvent.retrieveErrorLog e :: p.2)
    | .ok evs => .ok (ToriiEvent.retrieveErrorLog e :: evs)
  | .ok resp :: rest =>
    match entityEvents resp.entities with
    | .error p => .error p
    | .ok evs1 =>
      match processRetrieveResults rest with
      | .error p => .error (p.1, evs1 ++ p.2)
      | .ok evs => .ok (evs1 ++ evs)

/-- Log lines for the completed subscription bookkeeping tasks, in the
reverse index order the source iterates them. -/
def storeEvents (comps : List (Except String Unit)) : List ToriiEvent :=
  comps.reverse.map fun r =>
    match r with
    | .ok _ => ToriiEvent.storeOkLog
    | .error e => ToriiEvent.storeErrorLog e

/-- System check_torii_task_v2, in source order: poll the init slot,
sweep the bookkeeping queue, sweep the retrieval queue (processing the
completed results; a failed model conversion panics the pass, carrying
the reports already written), then drain the fan-in channel.  Each stage
reads fields no earlier stage writes, so the sweeps read the fields of
the incoming state directly.  An Except.error result is a panic of the
tick thread: the message plus the reports written before the panic. -/
def check_torii_task_v2 (s : ToriiConnectionV2) :
    Except (String × List ToriiEvent) (ToriiConnectionV2 × List ToriiEvent) :=
  match processRetrieveResults (sweepQueue s.pending_retrieve_entities).2.reverse with
  | .error p =>
    .error (p.1,
      (pollInit s).2 ++ storeEvents (sweepQueue s.pending_subscription_stores).2 ++ p.2)
  | .ok ev3 =>
    match s.subscription_receiver with
    | none =>
      .ok ({ (pollInit s).1 with
              pending_subscription_stores := (sweepQueue s.pending_subscription_stores).1
              pending_retrieve_entities := (sweepQueue s.pending_retrieve_entities).1 },
           (pollInit s).2 ++ storeEvents (sweepQueue s.pending_subscription_stores).2 ++ ev3)
    | some buf =>
      .ok ({ (pollInit s).1 with
              pending_subscription_stores := (sweepQueue s.pending_subscription_stores).1
              pending_retrieve_entities := (sweepQueue s.pending_retrieve_entities).1
              subscription_receiver := some [] },
           (pollInit s).2 ++ storeEvents (sweepQueue s.pending_subscription_stores).2 ++ ev3
             ++ buf.map fun q => ToriiEvent.entityUpdated q.1 q.2)

/-- The reports of a poll pass, written before the panic when the pass
panicked. -/
def eventsOf
    (r : Except (String × List ToriiEvent) (ToriiConnectionV2 × List ToriiEvent)) :
    List ToriiEvent :=
  match r with
  | .ok p => p.2
  | .error p => p.2

/-- The client the init slot is about to yield: some exactly when the
init task resolves with Ok in the coming poll. -/
def initOkClient (s : ToriiConnectionV2) : Option WorldClient :=
  match s.init_task with
  | some t =>
    if t.remaining = 0 then
      match t.result with
      | .ok c => some c
      | .error _ => none
    else none
  | none => none

/-- The reports of a computation that either returned reports or
panicked with reports written so far. -/
def evsOfE (r : Except (String × List ToriiEvent) (List ToriiEvent)) : List ToriiEvent :=
  match r with
  | .ok evs => evs
  | .error p => p.2

lemma countInit_append (l1 l2 : List ToriiEvent) :
    countInit (l1 ++ l2) = countInit l1 + countInit l2 := by
  unfold countInit
  rw [List.filter_append, List.length_append]

lemma countInit_cons_not_init (e : ToriiEvent) (l : List ToriiEvent)
    (h : e.isInit = false) : countInit (e :: l) = countInit l := by
  unfold countInit
  rw [List.filter_cons, h]
  simp

lemma countInit_storeEvents (comps : List (Except String Unit)) :
    countInit (storeEvents comps) = 0 := by
  unfold storeEvents
  induction comps.reverse with
  | nil => rfl
  | cons r rs ih =>
    rw [List.map_cons]
    cases r with
    | ok u =>
      rw [countInit_cons_not_init ToriiEvent.storeOkLog _ rfl]
      exact ih
    | error e =>
      rw [countInit_cons_not_init (ToriiEvent.storeErrorLog e) _ rfl]
      exact ih

lemma countInit_entityEvents (es : List ProtoEntity) :
    countInit (evsOfE (entityEvents es)) = 0 := by
  induction es with
  | nil => rfl
  | cons e rest ih =>
    unfold entityEvents
    cases hc : convertModels e.models with
    | error msg => rfl
    | ok ms =>
      cases hr : entityEvents rest with
      | error p =>
        rw [hr] at ih
        show countInit (ToriiEvent.entityUpdated e.hashed_keys ms :: p.2) = 0
        rw [countInit_cons_not_init (ToriiEvent.entityUpdated e.hashed_keys ms) _ rfl]
        exact ih
      | ok evs =>
        rw [hr] at ih
        show countInit (ToriiEvent.entityUpdated e.hashed_keys ms :: evs) = 0
        rw [countInit_cons_not_init (ToriiEvent.entityUpdated e.hashed_keys ms) _ rfl]
        exact ih

lemma countInit_processRetrieve
    (l : List (Except ToriiError RetrieveEntitiesResponse)) :
    countInit (evsOfE (processRetrieveResults l)) = 0 := by
  induction l with
  | nil => rfl
  | cons r rest ih =>
    cases r with
    | error e =>
      unfold processRetrieveResults
      cases hr : processRetrieveResults rest with
      | error p =>
        rw [hr] at ih
        show countInit (ToriiEvent.retrieveErrorLog e :: p.2) = 0
        rw [countInit_cons_not_init (ToriiEvent.retrieveErrorLog e) _ rfl]
        exact ih
      | ok evs =>
        rw [hr] at ih
        show countInit (ToriiEvent.retrieveErrorLog e :: evs) = 0
        rw [countInit_cons_not_init (ToriiEvent.retrieveErrorLog e) _ rfl]
        exact ih
    | ok resp =>
      unfold processRetrieveResults
      have hee := countInit_entityEvents resp.entities
      cases he : entityEvents resp.entities with
      | error p =>
        rw [he] at hee
        exact hee
      | ok evs1 =>
        rw [he] at hee
        have hee' : countInit evs1 = 0 := hee
        cases hr : processRetrieveResults rest with
        | error p =>
          rw [hr] at ih
          have ih' : countInit p.2 = 0 := ih
          show countInit (evs1 ++ p.2) = 0
          rw [countInit_append, hee', ih']
        | ok evs =>
          rw [hr] at ih
          have ih' : countInit evs = 0 := ih
          show countInit (evs1 ++ evs) = 0
          rw [countInit_append, hee', ih']

lemma countInit_chanMap (buf : List (Felt × List Struct)) :
    countInit (buf.map fun q => ToriiEvent.entityUpdated q.1 q.2) = 0 := by
  induction buf with
  | nil => rfl
  | cons q rest ih =>
    rw [List.map_cons, countInit_cons_not_init (ToriiEvent.entityUpdated q.1 q.2) _ rfl]
    exact ih

lemma pollInit_eq_none (s : ToriiConnectionV2) (h : s.init_task = none) :
    pollInit s = (s, []) := by
  unfold pollInit
  rw [h]

lemma pollInit_eq_ok (s : ToriiConnectionV2)
    (t : TaskH (Except ToriiError WorldClient)) (c : WorldClient)
    (h : s.init_task = some t) (h0 : t.remaining = 0) (hres : t.result = .ok c) :
    pollInit s = ({ s with init_task := none, client := some c },
      [ToriiEvent.initializedEvent]) := by
  unfold pollInit
  simp only [h, if_pos h0, hres]

lemma pollInit_eq_err (s : ToriiConnectionV2)
    (t : TaskH (Except ToriiError WorldClient)) (e : ToriiError)
    (h : s.init_task = some t) (h0 : t.remaining = 0) (hres : t.result = .error e) :
    pollInit s = ({ s with init_task := some t }, [ToriiEvent.initErrorLog e]) := by
  unfold pollInit
  simp only [h, if_pos h0, hres]

lemma pollInit_eq_pending (s : ToriiConnectionV2)
    (t : TaskH (Except ToriiError WorldClient))
    (h : s.init_task = some t) (h0 : t.remaining ≠ 0) :
    pollInit s = ({ s with init_task := some t.tick }, []) := by
  unfold pollInit
  simp only [h, if_neg h0]

lemma initOkClient_eq_none (s : ToriiConnectionV2) (h : s.init_task = none) :
    initOkClient s = none := by
  unfold initOkClient
  rw [h]

lemma initOkClient_eq_ok (s : ToriiConnectionV2)
    (t : TaskH (Except ToriiError WorldClient)) (c : WorldClient)
    (h : s.init_task = some t) (h0 : t.remaining = 0) (hres : t.result = .ok c) :
    initOkClient s = some c := by
  unfold initOkClient
  simp only [h, if_pos h0, hres]

lemma initOkClient_eq_err (s : ToriiConnectionV2)
    (t : TaskH (Except ToriiError WorldClient)) (e : ToriiError)
    (h : s.init_task = some t) (h0 : t.remaining = 0) (hres : t.result = .error e) :
    initOkClient s = none := by
  unfold initOkClient
  simp only [h, if_pos h0, hres]

lemma initOkClient_eq_pending (s : ToriiConnectionV2)
    (t : TaskH (Except ToriiError WorldClient))
    (h : s.init_task = some t) (h0 : t.remaining ≠ 0) :
    initOkClient s = none := by
  unfold initOkClient
  simp only [h, if_neg h0]

lemma pollInit_countInit (s : ToriiConnectionV2) :
    countInit (pollInit s).2 = if (initOkClient s).isSome then 1 else 0 := by
  cases hit : s.init_task with
  | none =>
    rw [pollInit_eq_none s hit, initOkClient_eq_none s hit]
    rfl
  | some t =>
    by_cases h0 : t.remaining = 0
    · cases hres : t.result with
      | ok c =>
        rw [pollInit_eq_ok s t c hit h0 hres, initOkClient_eq_ok s t c hit h0 hres]
        rfl
      | error e =>
        rw [pollInit_eq_err s t e hit h0 hres, initOkClient_eq_err s t e hit h0 hres]
        rfl
    · rw [pollInit_eq_pending s t hit h0, initOkClient_eq_pending s t hit h0]
      rfl

lemma pollInit_ok (s : ToriiConnectionV2) (c : WorldClient)
    (h : initOkClient s = some c) :
    pollInit s = ({ s with init_task := none, client := some c },
      [ToriiEvent.initializedEvent]) := by
  cases hit : s.init_task with
  | none =>
    rw [initOkClient_eq_none s hit] at h
    exact absurd h (by simp)
  | some t =>
    by_cases h0 : t.remaining = 0
    · cases hres : t.result with
      | ok c' =>
        rw [initOkClient_eq_ok s t c' hit h0 hres] at h
        simp only [Option.some.injEq] at h
        rw [pollInit_eq_ok s t c' hit h0 hres, h]
      | error e =>
        rw [initOkClient_eq_err s t e hit h0 hres] at h
        exact absurd h (by simp)
    · rw [initOkClient_eq_pending s t hit h0] at h
      exact absurd h (by simp)

/-- C5.  A poll pass writes the DojoInitializedEventV2 event exactly
once when the init task resolves with Ok in that pass (whether or not a
later stage panics), and zero times otherwise — in particular never
while the attempt is pending and never when it resolved with Err; and
when the pass completes after such a resolution, the resulting state
holds the connected client and an emptied init slot, so a successful
connection is reported exactly once. -/
theorem initialized_emitted_once_per_successful_connection :
    (∀ s : ToriiConnectionV2,
      countInit (eventsOf (check_torii_task_v2 s)) =
        if (initOkClient s).isSome then 1 else 0)
    ∧ (∀ (s s' : ToriiConnectionV2) (evs : List ToriiEvent) (c : WorldClient),
        check_torii_task_v2 s = Except.ok (s', evs) → initOkClient s = some c →
        s'.client = some c ∧ s'.init_task = none) := by
  constructor
  · intro s
    have hpr0 := countInit_processRetrieve (sweepQueue s.pending_retrieve_entities).2.reverse
    cases hpr : processRetrieveResults (sweepQueue s.pending_retrieve_entities).2.reverse with
    | error p =>
      rw [hpr] at hpr0
      have hpr0' : countInit p.2 = 0 := hpr0
      unfold check_torii_task_v2
      rw [hpr]
      show countInit ((pollInit s).2 ++ storeEvents (sweepQueue s.pending_subscription_stores).2 ++ p.2) = _
      rw [countInit_append, countInit_append, countInit_storeEvents, hpr0',
        pollInit_countInit]
      simp
    | ok ev3 =>
      rw [hpr] at hpr0
      have hpr0' : countInit ev3 = 0 := hpr0
      unfold check_torii_task_v2
      rw [hpr]
      cases hrecv : s.subscription_receiver with
      | none =>
        show countInit ((pollInit s).2 ++ storeEvents (sweepQueue s.pending_subscription_stores).2 ++ ev3) = _
        rw [countInit_append, countInit_append, countInit_storeEvents, hpr0',
          pollInit_countInit]
        simp
      | some buf =>
        show countInit ((pollInit s).2 ++ storeEvents (sweepQueue s.pending_subscription_stores).2 ++ ev3
          ++ buf.map fun q => ToriiEvent.entityUpdated q.1 q.2) = _
        rw [countInit_append, countInit_append, countInit_append,
          countInit_storeEvents, hpr0', countInit_chanMap, pollInit_countInit]
        simp
  · intro s s' evs c hok hinit
    have hp := pollInit_ok s c hinit
    cases hpr : processRetrieveResults (sweepQueue s.pending_retrieve_entities).2.reverse with
    | error p =>
      unfold check_torii_task_v2 at hok
      rw [hpr] at hok
      exact absurd hok (by simp)
    | ok ev3 =>
      unfold check_torii_task_v2 at hok
      rw [hpr] at hok
      cases hrecv : s.subscription_receiver with
      | none =>
        rw [hrecv] at hok
        simp only [Except.ok.injEq, Prod.mk.injEq] at hok
        obtain ⟨hS, hE⟩ := hok
        rw [← hS, hp]
        exact ⟨rfl, rfl⟩
      | some buf =>
        rw [hrecv] at hok
        simp only [Except.ok.injEq, Prod.mk.injEq] at hok
        obtain ⟨hS, hE⟩ := hok
        rw [← hS, hp]
        exact ⟨rfl, rfl⟩

/-- Concrete state for the C5 witness: a resolved Ok init task and
nothing else pending. -/
def s5w : ToriiConnectionV2 :=
  { init_task := some { remaining := 0, result := Except.ok { world_address := 11 } }
    client := none
    pending_retrieve_entities := []
    subscriptions := []
    subscription_receiver := some []
    pending_subscription_stores := [] }

/-- The state after the C5 witness pass. -/
def s5w' : ToriiConnectionV2 :=
  { init_task := none
    client := some { world_address := 11 }
    pending_retrieve_entities := []
    subscriptions := []
    subscription_receiver := some []
    pending_subscription_stores := [] }

/-- Witness for C5: polling a state whose init task resolves with Ok
emits one DojoInitializedEventV2 and stores the client. -/
theorem initialized_emitted_once_witness :
    countInit (eventsOf (check_torii_task_v2 s5w)) = 1
    ∧ (s5w'.client = some { world_address := 11 } ∧ s5w'.init_task = none) :=
  ⟨initialized_emitted_once_per_successful_connection.1 s5w,
   initialized_emitted_once_per_successful_connection.2 s5w s5w'
     [ToriiEvent.initializedEvent] { world_address := 11 } rfl rfl⟩

lemma convertModels_err_of_mem (ms : List ProtoModel) (pm : ProtoModel)
    (hm : pm ∈ ms) (hb : pm.try_into = none) :
    convertModels ms = Except.error "called Option::unwrap on a None value" := by
  induction ms with
  | nil => cases hm
  | cons m rest ih =>
    unfold convertModels
    cases hmt : m.try_into with
    | none => rfl
    | some sv =>
      rcases List.mem_cons.mp hm with h1 | h2
      · rw [h1] at hb
        rw [hmt] at hb
        exact Option.noConfusion hb
      · rw [ih h2]

lemma entityEvents_err_of_mem (es : List ProtoEntity) (e : ProtoEntity)
    (pm : ProtoModel) (he : e ∈ es) (hm : pm ∈ e.models)
    (hb : pm.try_into = none) :
    ∃ p, entityEvents es = Except.error p := by
  induction es with
  | nil => cases he
  | cons e0 rest ih =>
    unfold entityEvents
    cases hcm : convertModels e0.models with
    | error msg => exact ⟨(msg, []), rfl⟩
    | ok ms =>
      rcases List.mem_cons.mp he with h1 | h2
      · rw [← h1, convertModels_err_of_mem e.models pm hm hb] at hcm
        exact Except.noConfusion hcm
      · obtain ⟨p, hp⟩ := ih h2
        rw [hp]
        exact ⟨(p.1, ToriiEvent.entityUpdated e0.hashed_keys ms :: p.2), rfl⟩

lemma processRetrieve_err_of_mem
    (l : List (Except ToriiError RetrieveEntitiesResponse))
    (resp : RetrieveEntitiesResponse) (e : ProtoEntity) (pm : ProtoModel)
    (hr : Except.ok resp ∈ l) (he : e ∈ resp.entities) (hm : pm ∈ e.models)
    (hb : pm.try_into = none) :
    ∃ p, processRetrieveResults l = Except.error p := by
  induction l with
  | nil => cases hr
  | cons r rest ih =>
    rcases List.mem_cons.mp hr with h1 | h2
    · rw [← h1]
      unfold processRetrieveResults
      obtain ⟨p, hp⟩ := entityEvents_err_of_mem resp.entities e pm he hm hb
      rw [hp]
      exact ⟨p, rfl⟩
    · obtain ⟨p, hp⟩ := ih h2
      cases r with
      | error e0 =>
        unfold processRetrieveResults
        rw [hp]
        exact ⟨(p.1, ToriiEvent.retrieveErrorLog e0 :: p.2), rfl⟩
      | ok resp0 =>
        unfold processRetrieveResults
        cases hce : entityEvents resp0.entities with
        | error q => exact ⟨q, rfl⟩
        | ok evs1 =>
          rw [hp]
          exact ⟨(p.1, evs1 ++ p.2), rfl⟩

/-- C10.  When a completed retrieval task carries an Ok response holding
any model whose TryInto conversion fails, the poll pass itself panics
(the conversion is unwrapped unchecked): check_torii_task_v2 aborts with
an error instead of skipping the model or reporting an error event. -/
theorem failed_model_conversion_panics_poll
    (s : ToriiConnectionV2) (t : TaskH (Except ToriiError RetrieveEntitiesResponse))
    (resp : RetrieveEntitiesResponse) (e : ProtoEntity) (pm : ProtoModel)
    (ht : t ∈ s.pending_retrieve_entities) (h0 : t.remaining = 0)
    (hres : t.result = Except.ok resp) (he : e ∈ resp.entities)
    (hm : pm ∈ e.models) (hb : pm.try_into = none) :
    ∃ p, check_torii_task_v2 s = Except.error p := by
  have hmem : Except.ok resp ∈ (sweepQueue s.pending_retrieve_entities).2.reverse := by
    rw [List.mem_reverse, sweepQueue_snd]
    exact List.mem_map.mpr ⟨t, List.mem_filter.mpr ⟨ht, by simp [h0]⟩, hres⟩
  obtain ⟨p, hp⟩ := processRetrieve_err_of_mem _ resp e pm hmem he hm hb
  unfold check_torii_task_v2
  rw [hp]
  exact ⟨(p.1,
    (pollInit s).2 ++ storeEvents (sweepQueue s.pending_subscription_stores).2 ++ p.2), rfl⟩

/-- A wire model whose TryInto conversion fails. -/
def badModel : ProtoModel := { try_into := none }

/-- An entity holding the failing model. -/
def badEntity : ProtoEntity := { hashed_keys := 3, models := [badModel] }

/-- A response page holding the failing entity. -/
def badResp : RetrieveEntitiesResponse := { entities := [badEntity] }

/-- Concrete state for the C10 witness: one completed retrieval task
whose page holds a model that fails conversion. -/
def s10w : ToriiConnectionV2 :=
  { init_task := none
    client := some { world_address := 11 }
    pending_retrieve_entities := [{ remaining := 0, result := Except.ok badResp }]
    subscriptions := []
    subscription_receiver := some []
    pending_subscription_stores := [] }

/-- Witness for C10. -/
theorem failed_model_conversion_panics_poll_witness :
    ∃ p, check_torii_task_v2 s10w = Except.error p :=
  failed_model_conversion_panics_poll s10w
    { remaining := 0, result := Except.ok badResp } badResp badEntity badModel
    (List.mem_singleton.mpr rfl) rfl rfl
    (List.mem_singleton.mpr rfl) (List.mem_singleton.mpr rfl) rfl

/-- The position component of the example (examples/intro_v2.rs). -/
structure Position where
  player : Felt
  x : Nat
  y : Nat
deriving Repr, DecidableEq

/-- The From conversion of the example: three member lookups, each
unwrapped through the accessor chain; any absent member or failing
accessor panics with the unwrap message. -/
def positionFromStruct (sv : Struct) : Except String Position :=
  match sv.get "player" with
  | none => .error "called Option::unwrap on a None value"
  | some memp =>
    match memp.as_contract_address with
    | none => .error "called Option::unwrap on a None value"
    | some player =>
      match sv.get "x" with
      | none => .error "called Option::unwrap on a None value"
      | some memx =>
        match memx.as_u32 with
        | none => .error "called Option::unwrap on a None value"
        | some x =>
          match sv.get "y" with
          | none => .error "called Option::unwrap on a None value"
          | some memy =>
            match memy.as_u32 with
            | none => .error "called Option::unwrap on a None value"
            | some y => .ok { player := player, x := x, y := y }

/-- Handling of one model by on_dojo_events: a di-Position model is
converted (possibly panicking) and written as a PositionUpdatedEvent; a
di-Moves model is ignored; any other model only logs a warning. -/
def handleModel (m : Struct) : Except String (List Position) :=
  if m.name = "di-Position" then
    match positionFromStruct m with
    | .error msg => .error msg
    | .ok p => .ok [p]
  else .ok []

/-- Handling of the model list of one DojoEntityUpdatedV2 event. -/
def handleModels : List Struct → Except String (List Position)
  | [] => .ok []
  | m :: rest =>
    match handleModel m with
    | .error msg => .error msg
    | .ok ps =>
      match handleModels rest with
      | .error msg => .error msg
      | .ok qs => .ok (ps ++ qs)

/-- The per-event body of on_dojo_events in examples/intro_v2.rs: an
event whose entity identity is Felt::ZERO is skipped before any model is
examined; otherwise every model is handled in order. -/
def on_dojo_events_entity (entity_id : Felt) (models : List Struct) :
    Except String (List Position) :=
  if entity_id = 0 then .ok []
  else handleModels models

/-- A bridge state whose only pending work is one subscription push
buffered in the fan-in channel, carrying the zero identity. -/
def chanOnlyState (models : List Struct) : ToriiConnectionV2 :=
  { init_task := none
    client := none
    pending_retrieve_entities := []
    subscriptions := []
    subscription_receiver := some [(0, models)]
    pending_subscription_stores := [] }

/-- A sample decoded position model. -/
def posStruct : Struct :=
  { name := "di-Position"
    children :=
      [ { mname := "player", as_contract_address := some 5, as_u32 := none }
      , { mname := "x", as_contract_address := none, as_u32 := some 1 }
      , { mname := "y", as_contract_address := none, as_u32 := some 2 } ] }

/-- C3 counterexample.  The bridge forwards a subscription push whose
entity identity is the zero value as a DojoEntityUpdatedV2 event: the
poll pass on a state holding one buffered push with identity 0 emits
exactly that EntityUpdated event, while the claim says the bridge never
emits one for a zero-identity entity.  (The sentinel filter lives in the
example consumer, not in the bridge.) -/
theorem bridge_emits_entity_update_for_zero_identity :
    eventsOf (check_torii_task_v2 (chanOnlyState [posStruct]))
      = [ToriiEvent.entityUpdated 0 [posStruct]] := rfl

/-- The entity identity carried by an EntityUpdated report (none for
every other report kind). -/
def eventEntityId : ToriiEvent → Option Felt
  | .entityUpdated i _ => some i
  | _ => none

/-- A bridge state holding one completed retrieval task with an
arbitrary Ok response page and an arbitrary buffer of subscription
pushes in the fan-in channel. -/
def bridgeState (resp : RetrieveEntitiesResponse)
    (buf : List (Felt × List Struct)) : ToriiConnectionV2 :=
  { init_task := none
    client := some { world_address := 11 }
    pending_retrieve_entities := [{ remaining := 0, result := Except.ok resp }]
    subscriptions := []
    subscription_receiver := some buf
    pending_subscription_stores := [] }

lemma entityEvents_ids (es : List ProtoEntity) :
    ∀ evs : List ToriiEvent, entityEvents es = Except.ok evs →
      evs.map eventEntityId = es.map (fun e => some e.hashed_keys) := by
  induction es with
  | nil =>
    intro evs h
    have hnil : ([] : List ToriiEvent) = evs := Except.ok.inj h
    rw [← hnil]
    rfl
  | cons e rest ih =>
    intro evs h
    unfold entityEvents at h
    cases hc : convertModels e.models with
    | error msg =>
      rw [hc] at h
      exact Except.noConfusion h
    | ok ms =>
      rw [hc] at h
      cases hr : entityEvents rest with
      | error p =>
        rw [hr] at h
        exact Except.noConfusion h
      | ok evs' =>
        rw [hr] at h
        have hcons := Except.ok.inj h
        rw [← hcons, List.map_cons, List.map_cons, ih evs' hr]
        rfl

/-- C3 amended.  The bridge never filters on the entity identity: a poll
pass over a state holding a completed retrieval and a buffer of
subscription pushes reports one DojoEntityUpdatedV2 per result entity
followed by one per buffered push, each carrying its identity unchanged
(the identity list of the retrieval events is exactly the identity list
of the page, zero included, and every push is forwarded as given).  The
sentinel filtering happens in the consumer: the example event handler
skips any DojoEntityUpdatedV2 whose identity is zero before examining
its models, so such an event produces no position update and no panic. -/
theorem zero_identity_filtered_by_consumer_not_bridge
    (resp : RetrieveEntitiesResponse) (buf : List (Felt × List Struct))
    (evs : List ToriiEvent) (h : entityEvents resp.entities = Except.ok evs) :
    eventsOf (check_torii_task_v2 (bridgeState resp buf))
      = evs ++ buf.map (fun q => ToriiEvent.entityUpdated q.1 q.2)
    ∧ evs.map eventEntityId = resp.entities.map (fun e => some e.hashed_keys)
    ∧ (∀ models : List Struct, on_dojo_events_entity 0 models = Except.ok []) := by
  have hpr : processRetrieveResults
      (sweepQueue (bridgeState resp buf).pending_retrieve_entities).2.reverse
      = Except.ok evs := by
    show processRetrieveResults [Except.ok resp] = Except.ok evs
    unfold processRetrieveResults
    rw [h]
    show Except.ok (evs ++ []) = Except.ok evs
    rw [List.append_nil]
  refine ⟨?_, entityEvents_ids resp.entities evs h, fun models => rfl⟩
  unfold check_torii_task_v2
  rw [hpr]
  rfl

/-- An entity model whose conversion succeeds. -/
def okModel : ProtoModel := { try_into := some posStruct }

/-- A retrieval page holding a zero-identity entity and a non-zero one. -/
def wResp : RetrieveEntitiesResponse :=
  { entities :=
      [ { hashed_keys := 0, models := [okModel] }
      , { hashed_keys := 9, models := [okModel] } ] }

/-- A channel buffer holding a zero-identity push and a non-zero one. -/
def wBuf : List (Felt × List Struct) := [(0, [posStruct]), (7, [])]

/-- The retrieval events of the C3 witness page. -/
def wEvs : List ToriiEvent :=
  [ ToriiEvent.entityUpdated 0 [posStruct]
  , ToriiEvent.entityUpdated 9 [posStruct] ]

/-- Witness for the C3 amended theorem: a page with a zero and a
non-zero entity and a buffer with a zero and a non-zero push are all
forwarded unfiltered, and the consumer skips zero-identity events. -/
theorem zero_identity_filtered_by_consumer_witness :
    eventsOf (check_torii_task_v2 (bridgeState wResp wBuf))
      = wEvs ++ wBuf.map (fun q => ToriiEvent.entityUpdated q.1 q.2)
    ∧ wEvs.map eventEntityId = wResp.entities.map (fun e => some e.hashed_keys)
    ∧ (∀ models : List Struct, on_dojo_events_entity 0 models = Except.ok []) :=
  zero_identity_filtered_by_consumer_not_bridge wResp wBuf wEvs rfl

/-- HashMap removal on the association-list model of the registry. -/
def hm_remove (m : List (String × SubscriptionTaskState)) (k : String) :
    List (String × SubscriptionTaskState) :=
  m.filter fun q => !(q.1 == k)

/-- HashMap insertion (the key is fresh after removal). -/
def hm_insert (m : List (String × SubscriptionTaskState)) (k : String)
    (v : SubscriptionTaskState) : List (String × SubscriptionTaskState) :=
  (k, v) :: m

/-- Body of the bookkeeping task spawned by subscribe_entities: remove
any prior entry under the identifier (abandoning its background task in
place, without cancellation), then insert the fresh entry with is_active
true.  The task runs concurrently with the tick loop and with the
bookkeeping task of any other subscribe_entities call. -/
def storeSubscription (m : List (String × SubscriptionTaskState)) (k : String)
    (v : SubscriptionTaskState) : List (String × SubscriptionTaskState) :=
  hm_insert (hm_remove m k) k v

/-- Registry lookup by identifier. -/
def lookupSub (m : List (String × SubscriptionTaskState)) (k : String) :
    Option SubscriptionTaskState :=
  match m.find? (fun q => q.1 == k) with
  | some q => some q.2
  | none => none

/-- Number of registry entries stored under an identifier. -/
def countKey (m : List (String × SubscriptionTaskState)) (k : String) : Nat :=
  (m.filter fun q => q.1 == k).length

lemma filter_hm_remove (m : List (String × SubscriptionTaskState)) (k : String) :
    (hm_remove m k).filter (fun q => q.1 == k) = [] := by
  unfold hm_remove
  induction m with
  | nil => rfl
  | cons q rest ih =>
    by_cases h : (q.1 == k) = true <;> simp [List.filter_cons, h, ih]

lemma countKey_store (m : List (String × SubscriptionTaskState)) (k : String)
    (v : SubscriptionTaskState) : countKey (storeSubscription m k v) k = 1 := by
  unfold countKey storeSubscription hm_insert
  rw [List.filter_cons]
  simp [filter_hm_remove]

lemma lookupSub_store (m : List (String × SubscriptionTaskState)) (k : String)
    (v : SubscriptionTaskState) : lookupSub (storeSubscription m k v) k = some v := by
  unfold lookupSub storeSubscription hm_insert
  rw [List.find?_cons]
  simp

/-- The entry registered by the first subscribe_entities call of the C8
scenario. -/
def subEntry1 : SubscriptionTaskState := { task := 1, is_active := true }

/-- The entry registered by the second subscribe_entities call of the C8
scenario. -/
def subEntry2 : SubscriptionTaskState := { task := 2, is_active := true }

/-- C8 counterexample.  The two bookkeeping tasks of two
subscribe_entities calls with the same identifier run concurrently on
the task pool with no ordering guarantee.  Under the completion order in
which the second subscription's bookkeeping task acquires the registry
lock first, the final registry holds the EARLIER subscription's entry —
not the later subscription's entry the claim promises. -/
theorem resubscribe_can_retain_earlier_entry :
    lookupSub
        (storeSubscription (storeSubscription [] "position" subEntry2)
          "position" subEntry1) "position" = some subEntry1
    ∧ subEntry1 ≠ subEntry2 :=
  ⟨rfl, by decide⟩

/-- C8 amended.  After both bookkeeping tasks of two subscribe_entities
calls with the same identifier have completed — in either completion
order — the registry holds exactly one entry under that identifier, the
earlier-stored entry having been removed and its background task
abandoned without cancellation; the surviving entry is the later
subscription's exactly when the bookkeeping tasks completed in spawn
order. -/
theorem resubscribe_leaves_single_entry_per_id
    (subs : List (String × SubscriptionTaskState)) (id : String)
    (e1 e2 : SubscriptionTaskState) :
    countKey (storeSubscription (storeSubscription subs id e1) id e2) id = 1
    ∧ countKey (storeSubscription (storeSubscription subs id e2) id e1) id = 1
    ∧ lookupSub (storeSubscription (storeSubscription subs id e1) id e2) id = some e2 :=
  ⟨countKey_store _ id e2, countKey_store _ id e1, lookupSub_store _ id e2⟩

/-- Environment of one connect_to_starknet_v2 run: whether Url::parse
accepts the given string, and the outcome of provider.chain_id() (none
when the fetch fails). -/
structure SnEnv where
  urlParses : String → Bool
  chain_id : Option Felt

/-- Free function connect_to_starknet_v2.  Url::parse failure hits the
expect with the message below; a chain-id fetch failure hits unwrap.
Both are panics of the connecting task — the function has no error
return at all (its Rust return type is the bare account). -/
def connect_to_starknet_v2 (env : SnEnv) (rpc_url : String)
    (account_addr : Felt) (private_key : Felt) : Except String Account :=
  if env.urlParses rpc_url = false then
    .error "Expecting valid Starknet RPC URL"
  else
    match env.chain_id with
    | none => .error "called Result::unwrap on an Err value"
    | some cid =>
      .ok { address := account_addr, chain_id := cid,
            private_key := private_key, pending_block := false }

/-- Environment with an unparsable RPC URL. -/
def envNoParse : SnEnv := { urlParses := fun _ => false, chain_id := some 5 }

/-- C6 counterexample.  A URL-parse failure is not the fatal
predeployed-index error, yet the connection attempt is not dropped
silently: the connecting task panics (aborts with the expect message),
so there is no poll pass that clears the slot and carries on. -/
theorem account_connect_failure_panics_not_silent :
    connect_to_starknet_v2 envNoParse "not a url" 1 2
      = Except.error "Expecting valid Starknet RPC URL" := rfl

/-- C6 amended.  The account connection attempt has no silent failure
path: every failure inside connect_to_starknet_v2 (URL parse, chain-id
fetch) panics the connecting task; a value is returned exactly when both
succeed; and whenever the connecting task resolves with a value, the
poll clears the pending slot and stores the value as the account
unconditionally (the task type has no error case the poll could drop). -/
theorem account_connect_no_silent_failure_path :
    (∀ (env : SnEnv) (url : String) (a k : Felt),
      env.urlParses url = false ∨ env.chain_id = none →
        ∃ msg, connect_to_starknet_v2 env url a k = Except.error msg)
    ∧ (∀ (env : SnEnv) (url : String) (a k : Felt) (acc : Account),
        connect_to_starknet_v2 env url a k = Except.ok acc →
          env.urlParses url = true ∧ env.chain_id = some acc.chain_id)
    ∧ (∀ (s : StarknetConnectionV2) (t : TaskH Account),
        s.connecting_task = some t → t.remaining = 0 →
          (check_sn_task_v2 s).1.account = some t.result
          ∧ (check_sn_task_v2 s).1.connecting_task = none) := by
  refine ⟨?_, ?_, ?_⟩
  · intro env url a k h
    by_cases hu : env.urlParses url = false
    · exact ⟨_, by unfold connect_to_starknet_v2; rw [if_pos hu]⟩
    · cases h with
      | inl ha => exact absurd ha hu
      | inr hb =>
        refine ⟨"called Result::unwrap on an Err value", ?_⟩
        unfold connect_to_starknet_v2
        rw [if_neg hu, hb]
  · intro env url a k acc hok
    unfold connect_to_starknet_v2 at hok
    by_cases hu : env.urlParses url = false
    · rw [if_pos hu] at hok
      exact Except.noConfusion hok
    · rw [if_neg hu] at hok
      have hu' : env.urlParses url = true := by
        revert hu
        cases env.urlParses url <;> simp
      cases hc : env.chain_id with
      | none =>
        rw [hc] at hok
        exact Except.noConfusion hok
      | some cid =>
        rw [hc] at hok
        have hrec := Except.ok.inj hok
        refine ⟨hu', ?_⟩
        rw [← hrec]
  · intro s t hct h0
    have hpc := pollConnecting_eq_resolved s t hct h0
    constructor
    · show (pollTxQueue (pollConnecting s).1).1.account = some t.result
      rw [pollTxQueue_account, hpc]
    · show (pollTxQueue (pollConnecting s).1).1.connecting_task = none
      rw [pollTxQueue_connecting, hpc]

/-- Environment whose chain-id fetch fails. -/
def envNoChain : SnEnv := { urlParses := fun _ => true, chain_id := none }

/-- State whose connecting task resolves this pass, for the C6 witness. -/
def s6w : StarknetConnectionV2 :=
  { connecting_task := some { remaining := 0, result := acc0 }
    account := none
    pending_txs := [] }

/-- Witness for the C6 amended theorem. -/
theorem account_connect_no_silent_failure_path_witness :
    (∃ msg, connect_to_starknet_v2 envNoChain "http://localhost:5050" 1 2
      = Except.error msg)
    ∧ ((check_sn_task_v2 s6w).1.account = some acc0
      ∧ (check_sn_task_v2 s6w).1.connecting_task = none) :=
  ⟨account_connect_no_silent_failure_path.1 envNoChain "http://localhost:5050" 1 2
      (Or.inr rfl),
   account_connect_no_silent_failure_path.2.2 s6w
      { remaining := 0, result := acc0 } rfl rfl⟩

/-- One entry of the dev_predeployedAccounts response array.  The outer
Option of each field is whether the json field is present as a string
(as_str); the inner Option is the outcome of Felt::from_hex on it. -/
structure PredeployedEntry where
  address : Option (Option Felt)
  private_key : Option (Option Felt)
deriving Repr, DecidableEq

/-- Environment of one connect_predeployed_account_v2 run: Url::parse
outcome, HTTP send outcome, json decode outcome, the result array (none
when the response has no result array), and the chain-id fetch. -/
structure PredepEnv where
  urlParses : Bool
  httpOk : Bool
  jsonOk : Bool
  accounts : Option (List PredeployedEntry)
  chain_id : Option Felt

/-- The entry loop of connect_predeployed_account_v2: the enumeration
index i counts every entry; an entry with no private key string is
skipped (continue) but still consumes its index; an entry with a missing
address string, or a failing hex parse of either field, panics; the
entry whose index equals the requested one yields the account (with the
pending block tag set); falling off the end panics with the
out-of-bounds message. -/
def predeployedLoop (cid : Felt) (account_idx : Nat) :
    List PredeployedEntry → Nat → Except String Account
  | [], _ => .error "Account index out of bounds."
  | a :: rest, i =>
    match a.address with
    | none => .error "called Option::unwrap on a None value"
    | some addrHex =>
      match a.private_key with
      | none => predeployedLoop cid account_idx rest (i + 1)
      | some pkHex =>
        match pkHex with
        | none => .error "called Result::unwrap on an Err value"
        | some pk =>
          match addrHex with
          | none => .error "called Result::unwrap on an Err value"
          | some addr =>
            if i = account_idx then
              .ok { address := addr, chain_id := cid,
                    private_key := pk, pending_block := true }
            else predeployedLoop cid account_idx rest (i + 1)

/-- Free function connect_predeployed_account_v2.  Every failure mode
(URL parse, HTTP fetch, json decode, chain-id fetch, entry parsing, and
an index no entry matches) is a panic of the connecting task. -/
def connect_predeployed_account_v2 (env : PredepEnv) (rpc_url : String)
    (account_idx : Nat) : Except String Account :=
  if env.urlParses = false then .error "called Result::unwrap on an Err value"
  else if env.httpOk = false then .error "Failed to fetch predeployed accounts."
  else if env.jsonOk = false then .error "Failed to parse predeployed accounts."
  else
    match env.accounts with
    | none => .error "Account index out of bounds."
    | some vals =>
      match env.chain_id with
      | none => .error "Failed to get chain id."
      | some cid => predeployedLoop cid account_idx vals 0

/-- Number of entries of the predeployed-accounts response array. -/
def availablePredeployed (env : PredepEnv) : Nat :=
  match env.accounts with
  | some vals => vals.length
  | none => 0

lemma predeployedLoop_err (cid account_idx : Nat) :
    ∀ (entries : List PredeployedEntry) (i : Nat),
      entries.length + i ≤ account_idx →
        ∃ msg, predeployedLoop cid account_idx entries i = Except.error msg := by
  intro entries
  induction entries with
  | nil => intro i h; exact ⟨_, rfl⟩
  | cons a rest ih =>
    intro i h
    rw [List.length_cons] at h
    cases haddr : a.address with
    | none =>
      refine ⟨"called Option::unwrap on a None value", ?_⟩
      unfold predeployedLoop
      rw [haddr]
    | some addrHex =>
      cases hpk : a.private_key with
      | none =>
        obtain ⟨msg, hmsg⟩ := ih (i + 1) (by omega)
        refine ⟨msg, ?_⟩
        unfold predeployedLoop
        simp only [haddr, hpk]
        exact hmsg
      | some pkHex =>
        cases pkHex with
        | none =>
          refine ⟨"called Result::unwrap on an Err value", ?_⟩
          unfold predeployedLoop
          simp only [haddr, hpk]
        | some pk =>
          cases addrHex with
          | none =>
            refine ⟨"called Result::unwrap on an Err value", ?_⟩
            unfold predeployedLoop
            simp only [haddr, hpk]
          | some addr =>
            have hne : i ≠ account_idx := by omega
            obtain ⟨msg, hmsg⟩ := ih (i + 1) (by omega)
            refine ⟨msg, ?_⟩
            unfold predeployedLoop
            simp only [haddr, hpk, if_neg hne]
            exact hmsg

/-- C7.  A predeployed connection attempt whose index is at least the
number of entries of the response array never yields an account: the
connecting task fails catastrophically (a panic — reaching the end of
the loop panics with the out-of-bounds message, and every earlier
failure mode is a panic too), never a silently swallowed failure. -/
theorem predeployed_index_out_of_bounds_is_hard_failure
    (env : PredepEnv) (rpc_url : String) (account_idx : Nat)
    (h : availablePredeployed env ≤ account_idx) :
    ∃ msg, connect_predeployed_account_v2 env rpc_url account_idx
      = Except.error msg := by
  unfold connect_predeployed_account_v2
  by_cases hu : env.urlParses = false
  · rw [if_pos hu]; exact ⟨_, rfl⟩
  · rw [if_neg hu]
    by_cases hh : env.httpOk = false
    · rw [if_pos hh]; exact ⟨_, rfl⟩
    · rw [if_neg hh]
      by_cases hj : env.jsonOk = false
      · rw [if_pos hj]; exact ⟨_, rfl⟩
      · rw [if_neg hj]
        cases hacc : env.accounts with
        | none => exact ⟨_, rfl⟩
        | some vals =>
          cases hcid : env.chain_id with
          | none => exact ⟨_, rfl⟩
          | some cid =>
            apply predeployedLoop_err
            have hav : availablePredeployed env = vals.length := by
              unfold availablePredeployed
              rw [hacc]
            omega

/-- Environment returning an empty predeployed-accounts array. -/
def envEmptyAccounts : PredepEnv :=
  { urlParses := true, httpOk := true, jsonOk := true
    accounts := some [], chain_id := some 0 }

/-- Witness for C7: index 0 against an empty account array. -/
theorem predeployed_index_out_of_bounds_witness :
    ∃ msg, connect_predeployed_account_v2 envEmptyAccounts
      "http://localhost:5050" 0 = Except.error msg :=
  predeployed_index_out_of_bounds_is_hard_failure envEmptyAccounts
    "http://localhost:5050" 0 (Nat.le_refl 0)

end DojoBevy
